import Mathlib

/-
Verification development for the conversation engagement scoring and
timewaster-classification engine of the Bumble-Bot-System repository.

The repository tree names the engine at backend/app/message_filter/filter.py
(see src/dating-bot/backend/README.md), but that file is not present in the
source snapshot: only documentation (API docs with request/response examples,
usage guides) and the Chrome-extension UI scripts are.  The engine is
therefore modelled from the spec, faithful to its words; concrete constants
(the default configuration) are taken from the API documentation in the
snapshot.  Scores are rationals; regular-expression evaluation is abstracted
as a decidable matching oracle supplied as a parameter.
-/

namespace BumbleBot

/-- Modelled from the spec: the `sender` enum of a Message, wire values
"user" and "match" (the constructor is named `matched` because `match` is a
Lean keyword). -/
inductive Sender where
  | user
  | matched
deriving DecidableEq

/-- Modelled from the spec: a chat message — `content` (text, may be empty),
`timestamp` (integer seconds), `sender`. -/
structure Message where
  content : String
  timestamp : Int
  sender : Sender
deriving DecidableEq

/-- Modelled from the spec: a conversation — opaque `match_id`, display
`match_name`, and the ordered message list as supplied by the caller. -/
structure Conversation where
  match_id : String
  match_name : String
  messages : List Message
deriving DecidableEq

/-- Modelled from the spec: the tunable filter configuration
(`min_message_length`, `max_response_time`, `min_engagement_score`,
`min_question_ratio`, `max_one_word_ratio`, `red_flag_patterns`). -/
structure FilterConfig where
  min_message_length : Int
  max_response_time : Int
  min_engagement_score : ℚ
  min_question_ratio : ℚ
  max_one_word_ratio : ℚ
  red_flag_patterns : List String
deriving DecidableEq

/-- Modelled from the spec: the classification result returned by
`filter`. -/
structure FilterResult where
  is_timewaster : Bool
  confidence : ℚ
  overall_score : ℚ
  content_score : ℚ
  pattern_score : ℚ
  time_score : ℚ
  flags : List String
  reason : String
deriving DecidableEq

/-- Modelled from the spec: regular expressions are external data compiled
and evaluated by an engine; the engine is abstracted as a pair of boolean
oracles: `compiles` accepts a pattern source, `test` runs a pattern against
a text. -/
structure RegexEngine where
  compiles : String → Bool
  test : String → String → Bool

/-- Clamp a rational to the interval [0,1]. -/
def clamp01 (x : ℚ) : ℚ := max 0 (min 1 x)

/-- Modelled from the spec: the match-sent messages of a conversation. -/
def matchMessages (c : Conversation) : List Message :=
  c.messages.filter (fun m => m.sender = Sender.matched)

/-- Modelled from the spec: `avg_length` = mean character length over all
messages, defined as 0 for an empty conversation. -/
def avgLength (c : Conversation) : ℚ :=
  if c.messages = [] then 0
  else ((c.messages.map (fun m => (m.content.length : ℚ))).sum) / (c.messages.length : ℚ)

/-- Modelled from the spec: `question_ratio` = fraction of match-sent
messages containing a `?` character, among match-sent messages (0 if the
match sent none). -/
def questionRatio (c : Conversation) : ℚ :=
  if matchMessages c = [] then 0
  else (((matchMessages c).countP (fun m => m.content.data.contains '?') : ℕ) : ℚ) /
    (((matchMessages c).length : ℕ) : ℚ)

/-- Modelled from the spec: `one_word_ratio` = fraction of match-sent
messages whose trimmed content has exactly one whitespace-delimited token. -/
def oneWordRatio (c : Conversation) : ℚ :=
  if matchMessages c = [] then 0
  else (((matchMessages c).countP
      (fun m => ((m.content.trim.split Char.isWhitespace).filter (fun t => t ≠ "")).length = 1) : ℕ) : ℚ) /
    (((matchMessages c).length : ℕ) : ℚ)

/-- Modelled from the spec: `content_score` — a deterministic weighted
combination rewarding sufficient average length, sufficient question ratio,
and a low one-word ratio, clamped to [0,1] (the exact weighting is an
implementation choice; equal thirds are used here). -/
def contentScore (cfg : FilterConfig) (c : Conversation) : ℚ :=
  clamp01 (((if (cfg.min_message_length : ℚ) ≤ avgLength c then (1 : ℚ) else 0) +
    (if cfg.min_question_ratio ≤ questionRatio c then (1 : ℚ) else 0) +
    (if oneWordRatio c ≤ cfg.max_one_word_ratio then (1 : ℚ) else 0)) / 3)

/-- Modelled from the spec: the red-flag patterns that fire — a pattern
fires when it compiles and matches at least one match-sent message; a
pattern that fails to compile is skipped (non-fatal). -/
def firedPatterns (eng : RegexEngine) (cfg : FilterConfig) (c : Conversation) : List String :=
  cfg.red_flag_patterns.filter
    (fun p => eng.compiles p && (matchMessages c).any (fun m => eng.test p m.content))

/-- Modelled from the spec: `pattern_score` = 1 - fired_count / max(1,
total_pattern_count), clamped to [0,1]. -/
def patternScore (eng : RegexEngine) (cfg : FilterConfig) (c : Conversation) : ℚ :=
  clamp01 (1 - (((firedPatterns eng cfg c).length : ℕ) : ℚ) /
    (((max 1 cfg.red_flag_patterns.length : ℕ) : ℚ)))

/-- Modelled from the spec: response latencies — for each match-sent message
directly following a user-sent message with in-order timestamps, the
timestamp difference; same-sender runs and out-of-order timestamps are
skipped. -/
def responseLatencies : List Message → List Int
  | [] => []
  | [_] => []
  | a :: b :: rest =>
    (if b.sender = Sender.matched ∧ a.sender = Sender.user ∧ a.timestamp ≤ b.timestamp then
      [b.timestamp - a.timestamp]
    else []) ++ responseLatencies (b :: rest)

/-- Modelled from the spec: `time_score` = fraction of measurable latencies
that are ≤ `max_response_time`, defaulting to 1 when no latency is
measurable. -/
def timeScore (cfg : FilterConfig) (msgs : List Message) : ℚ :=
  if responseLatencies msgs = [] then 1
  else (((responseLatencies msgs).countP (fun t => t ≤ cfg.max_response_time) : ℕ) : ℚ) /
    ((((responseLatencies msgs).length : ℕ)) : ℚ)

/-- Modelled from the spec: `confidence` = |overall − threshold| /
max(threshold, 1 − threshold), clamped to [0,1]. -/
def confidenceOf (overall threshold : ℚ) : ℚ :=
  clamp01 (|overall - threshold| / max threshold (1 - threshold))

/-- Modelled from the spec: the reason string — "Sufficient engagement" when
not a timewaster, otherwise a fixed template naming the lowest of the three
component scores. -/
def reasonFor (tw : Bool) (cs ps ts : ℚ) : String :=
  if tw = false then "Sufficient engagement"
  else if cs ≤ ps ∧ cs ≤ ts then "Low engagement: weak message content"
  else if ps ≤ ts then "Low engagement: red-flag patterns detected"
  else "Low engagement: slow responses"

/-- Modelled from the spec: `filter(conversation)` — the full classification
pipeline.  An empty conversation is handled by an explicit branch: all
component scores default to the neutral-favorable 1, `is_timewaster` is
false and the reason is "Insufficient data".  Otherwise the overall score is
the (equal-thirds) weighted mean of the three component scores,
`is_timewaster` is a strict comparison of the overall score against
`min_engagement_score`, and the flags are the fired patterns in config
order, de-duplicated. -/
def filter (eng : RegexEngine) (cfg : FilterConfig) (c : Conversation) : FilterResult :=
  if c.messages = [] then
    { is_timewaster := false
      confidence := confidenceOf 1 cfg.min_engagement_score
      overall_score := 1
      content_score := 1
      pattern_score := 1
      time_score := 1
      flags := []
      reason := "Insufficient data" }
  else
    let cs := contentScore cfg c
    let ps := patternScore eng cfg c
    let ts := timeScore cfg c.messages
    let o := (cs + ps + ts) / 3
    let tw := decide (o < cfg.min_engagement_score)
    { is_timewaster := tw
      confidence := confidenceOf o cfg.min_engagement_score
      overall_score := o
      content_score := cs
      pattern_score := ps
      time_score := ts
      flags := (firedPatterns eng cfg c).eraseDups
      reason := reasonFor tw cs ps ts }

/-- Modelled from the spec: `FilterConfigStore.get()` — returns the current
configuration snapshot (the store is modelled as the configuration value it
holds). -/
def getFilterConfig (store : FilterConfig) : FilterConfig := store

/-- Modelled from the spec: configuration validation — all ratio/score
fields in [0,1], `min_message_length ≥ 0`, `max_response_time > 0`, every
pattern compiles; returns the list of failing fields (empty iff valid). -/
def validateConfig (eng : RegexEngine) (cfg : FilterConfig) : List String :=
  (if cfg.min_message_length < 0 then ["min_message_length"] else []) ++
  (if cfg.max_response_time ≤ 0 then ["max_response_time"] else []) ++
  (if 0 ≤ cfg.min_engagement_score ∧ cfg.min_engagement_score ≤ 1 then []
    else ["min_engagement_score"]) ++
  (if 0 ≤ cfg.min_question_ratio ∧ cfg.min_question_ratio ≤ 1 then []
    else ["min_question_ratio"]) ++
  (if 0 ≤ cfg.max_one_word_ratio ∧ cfg.max_one_word_ratio ≤ 1 then []
    else ["max_one_word_ratio"]) ++
  (cfg.red_flag_patterns.filter (fun p => !eng.compiles p)).map
    (fun p => "red_flag_patterns:" ++ p)

/-- Modelled from the spec: `updateFilterConfig` / `replace(newConfig)` —
validates the new configuration before atomically swapping it in; on
validation failure the store is unchanged and the caller receives a
validation error enumerating every failing field.  Returns the store after
the call together with the outcome. -/
def updateFilterConfig (eng : RegexEngine) (newCfg store : FilterConfig) :
    FilterConfig × Except (List String) FilterConfig :=
  if validateConfig eng newCfg = [] then (newCfg, Except.ok newCfg)
  else (store, Except.error (validateConfig eng newCfg))

/-- Modelled from the spec: a message as received at the boundary, before
validation — the sender is a raw string and the timestamp may be missing or
non-numeric (modelled as `none`). -/
structure RawMessage where
  content : String
  timestamp : Option Int
  sender : String
deriving DecidableEq

/-- Modelled from the spec: a conversation as received at the boundary. -/
structure RawConversation where
  match_id : String
  match_name : String
  messages : List RawMessage
deriving DecidableEq

/-- Modelled from the spec: boundary validation of the `sender` field — only
the wire values "user" and "match" are accepted. -/
def parseSender : String → Except String Sender
  | "user" => Except.ok Sender.user
  | "match" => Except.ok Sender.matched
  | _ => Except.error "invalid sender"

/-- Modelled from the spec: boundary validation of a single message — a
missing/invalid sender or a non-numeric timestamp is a ValidationError. -/
def parseMessage (m : RawMessage) : Except String Message :=
  match m.timestamp, parseSender m.sender with
  | some t, Except.ok s => Except.ok { content := m.content, timestamp := t, sender := s }
  | none, _ => Except.error "non-numeric timestamp"
  | some _, Except.error e => Except.error e

/-- Modelled from the spec: boundary validation of a whole conversation —
rejected before any scoring proceeds when any message is malformed. -/
def parseConversation (rc : RawConversation) : Except String Conversation := do
  let msgs ← rc.messages.mapM parseMessage
  pure { match_id := rc.match_id, match_name := rc.match_name, messages := msgs }

/-- Modelled from the spec: the single-conversation service path — validate
at the boundary, then score; a ValidationError propagates to the caller. -/
def filterOne (eng : RegexEngine) (cfg : FilterConfig) (rc : RawConversation) :
    Except String FilterResult := do
  let c ← parseConversation rc
  pure (filter eng cfg c)

/-- Modelled from the spec: `filterAll` — the batch path, keyed by contact
identifier; each entry is computed independently and a failure on one
conversation does not abort the others. -/
def filterAll (eng : RegexEngine) (cfg : FilterConfig)
    (batch : List (String × RawConversation)) :
    List (String × Except String FilterResult) :=
  batch.map (fun kv => (kv.1, filterOne eng cfg kv.2))

/-- The default configuration, from the API documentation in the source
snapshot (GET /api/v1/messages/filter/config). -/
def defaultConfig : FilterConfig :=
  { min_message_length := 5
    max_response_time := 86400
    min_engagement_score := 1/2
    min_question_ratio := 1/5
    max_one_word_ratio := 1/2
    red_flag_patterns :=
      ["(?i)instagram", "(?i)snapchat", "(?i)follow me", "(?i)my profile",
       "(?i)venmo", "(?i)cashapp", "(?i)paypal", "(?i)send money",
       "(?i)not here often", "(?i)check my bio"] }

/-- Whether the first character list is an initial segment of the second. -/
def startsWithChars : List Char → List Char → Bool
  | [], _ => true
  | _ :: _, [] => false
  | a :: ps, b :: ss => a == b && startsWithChars ps ss

/-- Whether the first character list occurs contiguously in the second. -/
def occursChars (p : List Char) : List Char → Bool
  | [] => startsWithChars p []
  | c :: rest => startsWithChars p (c :: rest) || occursChars p rest

/-- A concrete matching oracle for witnesses: every pattern compiles, and a
pattern matches a text exactly when its source occurs in the text as a
contiguous substring. -/
def litEngine : RegexEngine :=
  { compiles := fun _ => true
    test := fun p s => occursChars p.data s.data }

/-- The spec's concrete three-message scenario for contact `match1` (§8 and
the API documentation examples; the apostrophe of the third message is
dropped, which affects no statistic used here). -/
def match1Conv : Conversation :=
  { match_id := "match1"
    match_name := "Emma"
    messages :=
      [{ content := "Hey there!", timestamp := 1620984600, sender := Sender.matched },
       { content := "Hi! How are you?", timestamp := 1620984900, sender := Sender.user },
       { content := "Im good, thanks! What do you do for fun?",
         timestamp := 1620985200, sender := Sender.matched }] }

/-- A conversation with zero messages. -/
def emptyConv : Conversation :=
  { match_id := "m0", match_name := "Nobody", messages := [] }

/-- The default configuration with the classification threshold raised to 1,
so that an empty conversation sits exactly on the threshold. -/
def cfgThresholdOne : FilterConfig :=
  { defaultConfig with min_engagement_score := 1 }

theorem clamp01_mono {x y : ℚ} (h : x ≤ y) : clamp01 x ≤ clamp01 y :=
  max_le_max le_rfl (min_le_min le_rfl h)

/-- C1: for a fixed Conversation and FilterConfig (and matching oracle),
`filter` is a pure function, so two calls on the same inputs give identical
FilterResults; moreover the single-conversation service path computes
exactly `filter` on the parsed conversation, the same function the batch
path maps over its entries. -/
theorem filter_deterministic (eng : RegexEngine) (cfg : FilterConfig)
    (c : Conversation) (rc : RawConversation) :
    filter eng cfg c = filter eng cfg c ∧
    filterOne eng cfg rc = Except.map (filter eng cfg) (parseConversation rc) := by
  refine ⟨rfl, ?_⟩
  cases h : parseConversation rc <;> simp [filterOne, h, Except.map]

/-- C2: for a conversation with zero messages and any configuration with a
positive `min_engagement_score`, `filter` takes the explicit
empty-conversation branch: `is_timewaster` is false and the reason is
"Insufficient data". -/
theorem filter_empty_conversation (eng : RegexEngine) (cfg : FilterConfig)
    (c : Conversation) (hc : c.messages = []) (_hm : 0 < cfg.min_engagement_score) :
    (filter eng cfg c).is_timewaster = false ∧
    (filter eng cfg c).reason = "Insufficient data" := by
  rw [filter, if_pos hc]
  exact ⟨rfl, rfl⟩

/-- C2 witness: the empty conversation under the default configuration
(threshold 1/2 > 0). -/
theorem filter_empty_conversation_witness :
    (filter litEngine defaultConfig emptyConv).is_timewaster = false ∧
    (filter litEngine defaultConfig emptyConv).reason = "Insufficient data" :=
  filter_empty_conversation litEngine defaultConfig emptyConv rfl
    (by norm_num [defaultConfig])

/-- C3 counterexample: in the spec's concrete three-message scenario the
match sent two messages of which one contains a question mark, so the
match-only question ratio is 1/2, not 1. -/
theorem question_ratio_scenario_counterexample : questionRatio match1Conv ≠ 1 := by
  have h1 : matchMessages match1Conv ≠ [] := by decide
  have h2 : (matchMessages match1Conv).countP
      (fun m => m.content.data.contains '?') = 1 := by decide
  have h3 : (matchMessages match1Conv).length = 2 := by decide
  rw [questionRatio, if_neg h1, h2, h3]
  norm_num

/-- C3 (amended): `question_ratio` is the fraction of match-sent messages
containing a `?` character among match-sent messages only (0 when the match
sent none); in the spec's concrete three-message scenario it equals 1/2
(1 of 2 match-sent messages contains `?`). -/
theorem question_ratio_match_only (c : Conversation) :
    (matchMessages c = [] → questionRatio c = 0) ∧
    questionRatio c * ((matchMessages c).length : ℚ) =
      (((matchMessages c).countP (fun m => m.content.data.contains '?') : ℕ) : ℚ) ∧
    questionRatio match1Conv = 1/2 := by
  refine ⟨fun h => by rw [questionRatio, if_pos h], ?_, ?_⟩
  · by_cases h : matchMessages c = []
    · rw [questionRatio, if_pos h, h]
      simp
    · rw [questionRatio, if_neg h]
      have hl : (((matchMessages c).length : ℕ) : ℚ) ≠ 0 := by
        have : (matchMessages c).length ≠ 0 := fun hh => h (List.length_eq_zero.mp hh)
        exact_mod_cast this
      field_simp
  · have h1 : matchMessages match1Conv ≠ [] := by decide
    have h2 : (matchMessages match1Conv).countP
        (fun m => m.content.data.contains '?') = 1 := by decide
    have h3 : (matchMessages match1Conv).length = 2 := by decide
    rw [questionRatio, if_neg h1, h2, h3]
    norm_num

/-- C3 witness: the empty-match case at a concrete conversation, and the
concrete scenario value. -/
theorem question_ratio_match_only_witness :
    questionRatio emptyConv = 0 ∧ questionRatio match1Conv = 1/2 :=
  ⟨(question_ratio_match_only emptyConv).1 rfl,
   (question_ratio_match_only emptyConv).2.2⟩

/-- C4: the `confidence` field of every FilterResult produced by `filter`
equals the distance of its `overall_score` from the threshold, normalized by
max(threshold, 1 − threshold) and clamped to [0,1]; in particular with
threshold 1/2 and overall score 4/5 the confidence is 3/5. -/
theorem confidence_normalized (eng : RegexEngine) (cfg : FilterConfig) (c : Conversation) :
    (filter eng cfg c).confidence =
      clamp01 (|(filter eng cfg c).overall_score - cfg.min_engagement_score| /
        max cfg.min_engagement_score (1 - cfg.min_engagement_score)) ∧
    confidenceOf (4/5) (1/2) = 3/5 := by
  constructor
  · by_cases h : c.messages = [] <;> simp [filter, h, confidenceOf]
  · norm_num [confidenceOf, clamp01, max_def, min_def, abs_of_nonneg]

/-- C5: `avg_length` times the message count equals the total character
length over all messages (both senders), and `avg_length` is 0 for a
conversation with no messages. -/
theorem avg_length_mean (c : Conversation) :
    (c.messages = [] → avgLength c = 0) ∧
    avgLength c * (c.messages.length : ℚ) =
      (c.messages.map (fun m => (m.content.length : ℚ))).sum := by
  refine ⟨fun h => by rw [avgLength, if_pos h], ?_⟩
  by_cases h : c.messages = []
  · rw [avgLength, if_pos h, h]
    simp
  · rw [avgLength, if_neg h]
    have hl : ((c.messages.length : ℕ) : ℚ) ≠ 0 := by
      have : c.messages.length ≠ 0 := fun hh => h (List.length_eq_zero.mp hh)
      exact_mod_cast this
    field_simp

/-- C5 witness: the empty conversation has average length 0. -/
theorem avg_length_mean_witness : avgLength emptyConv = 0 :=
  (avg_length_mean emptyConv).1 rfl

/-- C6: when the overall score of a filter result equals the threshold
exactly, the conversation is not classified as a timewaster — the
classification is a strict comparison. -/
theorem threshold_strict (eng : RegexEngine) (cfg : FilterConfig) (c : Conversation)
    (h : (filter eng cfg c).overall_score = cfg.min_engagement_score) :
    (filter eng cfg c).is_timewaster = false := by
  by_cases hc : c.messages = []
  · rw [filter, if_pos hc]
  · simp only [filter, if_neg hc] at h ⊢
    rw [h]
    simp

/-- C6 witness: the empty conversation under a threshold of 1 has overall
score exactly 1 and is not classified as a timewaster. -/
theorem threshold_strict_witness :
    (filter litEngine cfgThresholdOne emptyConv).is_timewaster = false :=
  threshold_strict litEngine cfgThresholdOne emptyConv rfl

/-- A one-message conversation whose match-sent message contains the word
"spam". -/
def spamConv : Conversation :=
  { match_id := "m2"
    match_name := "Spammer"
    messages := [{ content := "send spam now", timestamp := 100, sender := Sender.matched }] }

/-- The default configuration with an empty red-flag pattern list. -/
def cfgNoPatterns : FilterConfig :=
  { defaultConfig with red_flag_patterns := [] }

/-- C7: `pattern_score` equals 1 − fired_count / max(1, total_pattern_count)
clamped to [0,1], and appending one more pattern that compiles and fires on
the fixed conversation never increases `pattern_score`. -/
theorem pattern_score_monotone (eng : RegexEngine) (cfg : FilterConfig)
    (c : Conversation) (p : String)
    (hc : eng.compiles p = true)
    (hf : (matchMessages c).any (fun m => eng.test p m.content) = true) :
    patternScore eng cfg c =
      clamp01 (1 - (((firedPatterns eng cfg c).length : ℕ) : ℚ) /
        (((max 1 cfg.red_flag_patterns.length : ℕ) : ℚ))) ∧
    patternScore eng { cfg with red_flag_patterns := cfg.red_flag_patterns ++ [p] } c ≤
      patternScore eng cfg c := by
  refine ⟨rfl, ?_⟩
  have hfired : firedPatterns eng
      { cfg with red_flag_patterns := cfg.red_flag_patterns ++ [p] } c =
      firedPatterns eng cfg c ++ [p] := by
    simp [firedPatterns, List.filter_append, hc, hf]
  have hfn : (firedPatterns eng cfg c).length ≤ cfg.red_flag_patterns.length :=
    List.length_filter_le _ _
  rw [patternScore, patternScore, hfired]
  apply clamp01_mono
  apply sub_le_sub_left
  rcases Nat.eq_zero_or_pos cfg.red_flag_patterns.length with h0 | hpos
  · have hf0 : (firedPatterns eng cfg c).length = 0 := Nat.le_zero.mp (h0 ▸ hfn)
    simp [h0, hf0]
  · have hmax : max 1 cfg.red_flag_patterns.length = cfg.red_flag_patterns.length :=
      max_eq_right hpos
    have hmax2 : max 1 (cfg.red_flag_patterns ++ [p]).length =
        cfg.red_flag_patterns.length + 1 := by
      simp
    rw [hmax, hmax2, List.length_append, List.length_singleton]
    have hnq : (0 : ℚ) < (cfg.red_flag_patterns.length : ℚ) := by exact_mod_cast hpos
    have hnq1 : (0 : ℚ) < ((cfg.red_flag_patterns.length + 1 : ℕ) : ℚ) := by positivity
    rw [div_le_div_iff₀ hnq hnq1]
    have hfc : ((firedPatterns eng cfg c).length : ℚ) ≤ (cfg.red_flag_patterns.length : ℚ) := by
      exact_mod_cast hfn
    push_cast
    nlinarith

/-- C7 witness: appending the firing pattern "spam" to an empty pattern list
on a conversation containing "spam" does not increase the pattern score. -/
theorem pattern_score_monotone_witness :
    litEngine.compiles "spam" = true ∧
    (matchMessages spamConv).any (fun m => litEngine.test "spam" m.content) = true ∧
    patternScore litEngine
        { cfgNoPatterns with
          red_flag_patterns := cfgNoPatterns.red_flag_patterns ++ ["spam"] } spamConv ≤
      patternScore litEngine cfgNoPatterns spamConv :=
  ⟨rfl, by decide,
   (pattern_score_monotone litEngine cfgNoPatterns spamConv "spam" rfl (by decide)).2⟩

theorem latencies_nonneg (msgs : List Message) :
    ∀ t ∈ responseLatencies msgs, 0 ≤ t := by
  induction msgs with
  | nil => intro t ht; simp [responseLatencies] at ht
  | cons a tl ih =>
    cases tl with
    | nil => intro t ht; simp [responseLatencies] at ht
    | cons b rest =>
      intro t ht
      simp only [responseLatencies] at ht
      rcases List.mem_append.mp ht with h | h
      · by_cases hcond : b.sender = Sender.matched ∧ a.sender = Sender.user ∧
            a.timestamp ≤ b.timestamp
        · rw [if_pos hcond] at h
          simp only [List.mem_singleton] at h
          subst h
          exact sub_nonneg.mpr hcond.2.2
        · rw [if_neg hcond] at h
          simp at h
      · exact ih t h

/-- C8: every measurable response latency is nonnegative (out-of-order
timestamps are skipped, never producing a negative latency); with zero
measurable latencies `time_score` is 1, and otherwise it is the fraction of
measurable latencies that are at most `max_response_time`. -/
theorem time_score_fraction (cfg : FilterConfig) (msgs : List Message) :
    (∀ t ∈ responseLatencies msgs, 0 ≤ t) ∧
    (responseLatencies msgs = [] → timeScore cfg msgs = 1) ∧
    (responseLatencies msgs ≠ [] →
      timeScore cfg msgs =
        (((responseLatencies msgs).countP (fun t => t ≤ cfg.max_response_time) : ℕ) : ℚ) /
          ((((responseLatencies msgs).length : ℕ)) : ℚ)) :=
  ⟨latencies_nonneg msgs,
   fun h => by rw [timeScore, if_pos h],
   fun h => by rw [timeScore, if_neg h]⟩

/-- A two-message list whose reply has an earlier timestamp than its
predecessor: the latency is skipped, not negative. -/
def outOfOrderMsgs : List Message :=
  [{ content := "hi", timestamp := 100, sender := Sender.user },
   { content := "yo", timestamp := 50, sender := Sender.matched }]

/-- C8 witness: with the only candidate latency skipped as out-of-order,
no latency is measurable and the time score defaults to 1. -/
theorem time_score_fraction_witness :
    timeScore defaultConfig outOfOrderMsgs = 1 :=
  (time_score_fraction defaultConfig outOfOrderMsgs).2.1 rfl

/-- C9: on an invalid new configuration, `updateFilterConfig` leaves the
stored configuration observed by `getFilterConfig` unchanged and returns a
validation error listing every failing field: each out-of-range numeric
field and each non-compiling pattern appears in the returned list. -/
theorem update_config_invalid_atomic (eng : RegexEngine) (newCfg store : FilterConfig)
    (h : validateConfig eng newCfg ≠ []) :
    getFilterConfig (updateFilterConfig eng newCfg store).1 = getFilterConfig store ∧
    (updateFilterConfig eng newCfg store).2 =
      Except.error (validateConfig eng newCfg) ∧
    (newCfg.min_message_length < 0 →
      "min_message_length" ∈ validateConfig eng newCfg) ∧
    (newCfg.max_response_time ≤ 0 →
      "max_response_time" ∈ validateConfig eng newCfg) ∧
    (¬ (0 ≤ newCfg.min_engagement_score ∧ newCfg.min_engagement_score ≤ 1) →
      "min_engagement_score" ∈ validateConfig eng newCfg) ∧
    (¬ (0 ≤ newCfg.min_question_ratio ∧ newCfg.min_question_ratio ≤ 1) →
      "min_question_ratio" ∈ validateConfig eng newCfg) ∧
    (¬ (0 ≤ newCfg.max_one_word_ratio ∧ newCfg.max_one_word_ratio ≤ 1) →
      "max_one_word_ratio" ∈ validateConfig eng newCfg) ∧
    (∀ p ∈ newCfg.red_flag_patterns, eng.compiles p = false →
      ("red_flag_patterns:" ++ p) ∈ validateConfig eng newCfg) := by
  refine ⟨?_, ?_, ?_, ?_, ?_, ?_, ?_, ?_⟩
  · rw [updateFilterConfig, if_neg h]
  · rw [updateFilterConfig, if_neg h]
  · intro hv
    simp [validateConfig, hv]
  · intro hv
    simp [validateConfig, hv]
  · intro hv
    simp [validateConfig, hv]
  · intro hv
    simp [validateConfig, hv]
  · intro hv
    simp [validateConfig, hv]
  · intro p hp hcomp
    have hpf : p ∈ newCfg.red_flag_patterns.filter (fun q => !eng.compiles q) :=
      List.mem_filter.mpr ⟨hp, by simp [hcomp]⟩
    have hmm : ("red_flag_patterns:" ++ p) ∈
        (newCfg.red_flag_patterns.filter (fun q => !eng.compiles q)).map
          (fun q => "red_flag_patterns:" ++ q) :=
      List.mem_map.mpr ⟨p, hpf, rfl⟩
    simp only [validateConfig, List.mem_append]
    tauto

/-- A configuration whose classification threshold is out of range. -/
def badCfg : FilterConfig :=
  { defaultConfig with min_engagement_score := 2 }

/-- C9 witness: updating the default configuration to one with threshold 2
leaves the store unchanged and reports the failing field. -/
theorem update_config_invalid_atomic_witness :
    getFilterConfig (updateFilterConfig litEngine badCfg defaultConfig).1 =
      getFilterConfig defaultConfig ∧
    "min_engagement_score" ∈ validateConfig litEngine badCfg := by
  have h := update_config_invalid_atomic litEngine badCfg defaultConfig
    (by norm_num [validateConfig, badCfg, defaultConfig, litEngine])
  exact ⟨h.1, h.2.2.2.2.1 (by norm_num [badCfg, defaultConfig])⟩

theorem parseMessage_ok_of_wellformed (m : RawMessage)
    (ht : m.timestamp ≠ none) (hs : m.sender = "user" ∨ m.sender = "match") :
    ∃ msg, parseMessage m = Except.ok msg := by
  obtain ⟨t, htt⟩ := Option.ne_none_iff_exists.mp ht
  rcases hs with hs | hs
  · exact ⟨{ content := m.content, timestamp := t, sender := Sender.user },
      by simp [parseMessage, ← htt, hs, parseSender]⟩
  · exact ⟨{ content := m.content, timestamp := t, sender := Sender.matched },
      by simp [parseMessage, ← htt, hs, parseSender]⟩

theorem mapM_parse_ok (l : List RawMessage)
    (h : ∀ m ∈ l, m.timestamp ≠ none ∧ (m.sender = "user" ∨ m.sender = "match")) :
    ∃ msgs, l.mapM parseMessage = Except.ok msgs := by
  induction l with
  | nil => exact ⟨[], rfl⟩
  | cons a tl ih =>
    obtain ⟨msg, hmsg⟩ :=
      parseMessage_ok_of_wellformed a (h a (List.mem_cons_self a tl)).1
        (h a (List.mem_cons_self a tl)).2
    obtain ⟨msgs, hmsgs⟩ := ih (fun m hm => h m (List.mem_cons_of_mem a hm))
    exact ⟨msg :: msgs, by rw [List.mapM_cons, hmsg, hmsgs]; rfl⟩

/-- C10: every conversation of a batch is scored independently by
`filterAll` — the entry for each key is exactly the single-conversation
result for its conversation (so one entry failing validation leaves every
sibling result present), no entry is dropped, and a conversation whose
messages are all well-formed yields a valid FilterResult. -/
theorem batch_isolation (eng : RegexEngine) (cfg : FilterConfig)
    (batch : List (String × RawConversation)) (k : String) (rc : RawConversation)
    (hmem : (k, rc) ∈ batch) :
    (k, filterOne eng cfg rc) ∈ filterAll eng cfg batch ∧
    (filterAll eng cfg batch).length = batch.length ∧
    ((∀ m ∈ rc.messages, m.timestamp ≠ none ∧ (m.sender = "user" ∨ m.sender = "match")) →
      ∃ r, filterOne eng cfg rc = Except.ok r) := by
  refine ⟨List.mem_map.mpr ⟨(k, rc), hmem, rfl⟩, by simp [filterAll], fun hwf => ?_⟩
  obtain ⟨msgs, hmsgs⟩ := mapM_parse_ok rc.messages hwf
  have hpc : parseConversation rc = Except.ok
      { match_id := rc.match_id, match_name := rc.match_name, messages := msgs } := by
    unfold parseConversation
    rw [hmsgs]
    rfl
  exact ⟨filter eng cfg { match_id := rc.match_id, match_name := rc.match_name, messages := msgs },
    by unfold filterOne; rw [hpc]; rfl⟩

/-- A well-formed one-message raw conversation. -/
def rcGood1 : RawConversation :=
  { match_id := "a"
    match_name := "A"
    messages := [{ content := "Hello?", timestamp := some 10, sender := "match" }] }

/-- A raw conversation with a malformed message (unknown sender). -/
def rcBad : RawConversation :=
  { match_id := "b"
    match_name := "B"
    messages := [{ content := "x", timestamp := some 20, sender := "robot" }] }

/-- A well-formed empty raw conversation. -/
def rcGood2 : RawConversation :=
  { match_id := "c", match_name := "C", messages := [] }

/-- A batch of three conversations, the middle one malformed. -/
def batch3 : List (String × RawConversation) :=
  [("a", rcGood1), ("b", rcBad), ("c", rcGood2)]

/-- C10 witness: in the three-conversation batch with one malformed entry,
both well-formed siblings are present with valid results and the malformed
entry reports its validation error. -/
theorem batch_isolation_witness :
    ("a", filterOne litEngine defaultConfig rcGood1) ∈
      filterAll litEngine defaultConfig batch3 ∧
    ("c", filterOne litEngine defaultConfig rcGood2) ∈
      filterAll litEngine defaultConfig batch3 ∧
    (∃ r, filterOne litEngine defaultConfig rcGood1 = Except.ok r) ∧
    (∃ r, filterOne litEngine defaultConfig rcGood2 = Except.ok r) ∧
    filterOne litEngine defaultConfig rcBad = Except.error "invalid sender" := by
  have h1 := batch_isolation litEngine defaultConfig batch3 "a" rcGood1 (by simp [batch3])
  have h2 := batch_isolation litEngine defaultConfig batch3 "c" rcGood2 (by simp [batch3])
  refine ⟨h1.1, h2.1, h1.2.2 (by decide), h2.2.2 (by decide), ?_⟩
  rfl

end BumbleBot
